import Mathlib

/-!
Verification of the DSMR P1 telegram reader (`telegram_from_serial.py`)
against its natural-language specification.

The development shallowly embeds the script's processing pipeline:
framing of received lines into a telegram, the checksum stage
(lines 139-150 of the source), the OBIS line decoder (lines 158-167)
and the routing of decoded data points to MQTT topics (lines 171-175).
Strings are modelled as Lean `String`/`List Char`; bytes as `Nat`
(UTF-8 encoding made explicit); Python exceptions as `Except`.
-/

namespace P1

/-! ## Regex engine

Python's `re.match("(\d*-\d*:\d*.\d*.\d*)", line)` is embedded as a
small backtracking matcher over a token list.  `dstar` is `\d*`
(greedy, tried longest first, backtracking by giving back one digit at
a time, exactly the order a backtracking regex engine uses), `digit`
is `\d`, `lit c` a literal character, and `any` is `.` (any character
except a newline; the script does not set DOTALL).  `dpend k` is the
internal state of a `\d*` that currently tries to consume `k` digits.
The matcher is fuel-indexed so that it is structurally recursive and
computable by the kernel; `reMatch` supplies fuel that exceeds the
maximal backtracking depth. -/

inductive MTok where
  | digit : MTok
  | lit : Char → MTok
  | any : MTok
  | dstar : MTok
  | dpend : Nat → MTok
deriving DecidableEq

def mt : Nat → List MTok → List Char → Option Nat
  | 0, _, _ => none
  | _ + 1, [], _ => some 0
  | f + 1, .digit :: ts, cs =>
    match cs with
    | [] => none
    | c :: cs' => if c.isDigit then (mt f ts cs').map (· + 1) else none
  | f + 1, .lit a :: ts, cs =>
    match cs with
    | [] => none
    | c :: cs' => if c = a then (mt f ts cs').map (· + 1) else none
  | f + 1, .any :: ts, cs =>
    match cs with
    | [] => none
    | c :: cs' => if c = '\n' then none else (mt f ts cs').map (· + 1)
  | f + 1, .dstar :: ts, cs => mt f (.dpend ((cs.takeWhile Char.isDigit).length) :: ts) cs
  | f + 1, .dpend k :: ts, cs =>
    match mt f ts (cs.drop k) with
    | some n => some (k + n)
    | none =>
      match k with
      | 0 => none
      | k' + 1 => mt f (.dpend k' :: ts) cs

def reMatch (ts : List MTok) (cs : List Char) : Option Nat :=
  mt ((ts.length + 1) * (cs.length + 3)) ts cs

/-- The token form of the pattern actually written in the source,
`\d*-\d*:\d*.\d*.\d*` — note the `\d*` (zero or more digits) and the
unescaped dots, which match any character. -/
def obisToks : List MTok :=
  [.dstar, .lit '-', .dstar, .lit ':', .dstar, .any, .dstar, .any, .dstar]

/-- The token form of the pattern the spec describes,
`\d+-\d+:\d+\.\d+\.\d+` — one-or-more-digit groups and literal dots. -/
def specObisToks : List MTok :=
  [.digit, .dstar, .lit '-', .digit, .dstar, .lit ':', .digit, .dstar,
   .lit '.', .digit, .dstar, .lit '.', .digit, .dstar]

/-! ## Field decoder (source lines 158-167) -/

/-- Whitespace characters removed by Python's `str.strip()` (ASCII range). -/
def isPyWs (c : Char) : Bool :=
  c = ' ' || c = '\t' || c = '\n' || c = '\r' || c = '\x0b' || c = '\x0c'

/-- Python `s.strip()`: drop leading and trailing whitespace. -/
def pyStrip (l : List Char) : List Char :=
  ((l.dropWhile isPyWs).reverse.dropWhile isPyWs).reverse

/-- `replace("(", " ").replace(")", " ")` applied character-wise. -/
def parenToSpace (c : Char) : Char :=
  if c = '(' || c = ')' then ' ' else c

structure DataPoint where
  identifier : List Char
  value : List Char
deriving DecidableEq

/-- `re.match` on a line; on a match the identifier is `group(1)` and the
value is the rest of the line with parentheses replaced by spaces and
stripped (source lines 161-167). -/
def decodeLine (cs : List Char) : Option DataPoint :=
  match reMatch obisToks cs with
  | none => none
  | some n => some ⟨cs.take n, pyStrip ((cs.drop n).map parenToSpace)⟩

/-! ## Telegram splitting (Python `str.split`) -/

/-- Python `telegram.split("!")`. -/
def splitOnBang : List Char → List (List Char)
  | [] => [[]]
  | c :: cs =>
    match splitOnBang cs with
    | [] => [[]]
    | h :: t => if c = '!' then [] :: h :: t else (c :: h) :: t

/-- Python `telegram.split("\r\n")`. -/
def splitCRLF : List Char → List (List Char)
  | [] => [[]]
  | '\r' :: '\n' :: cs =>
    [] :: splitCRLF cs
  | c :: cs =>
    match splitCRLF cs with
    | [] => [[c]]
    | h :: t => (c :: h) :: t

/-- `telegram.split("!")[0]` — the text before the first `!` (line 144). -/
def codeBody (t : String) : List Char := (splitOnBang t.data).headD []

/-- `telegram.split("!")[1]` when it exists — the text between the first
and second `!` (or the end of the telegram) (line 141); `none` models the
`IndexError` raised when the telegram contains no `!`. -/
def codeTrailerHex (t : String) : Option (List Char) := (splitOnBang t.data)[1]?

/-! ## Python `int('0x' + s, 16)` (source line 141) -/

def isHexDig (c : Char) : Bool :=
  c.isDigit || ('a' ≤ c && c ≤ 'f') || ('A' ≤ c && c ≤ 'F')

def hexVal (c : Char) : Nat :=
  if c.isDigit then c.toNat - 48
  else if 'a' ≤ c && c ≤ 'f' then c.toNat - 87
  else c.toNat - 55

/-- Hex digits after the first one; a single `_` is allowed between
digits (Python numeric literal grouping), never doubled or trailing. -/
def hexRest : List Char → Nat → Option Nat
  | [], acc => some acc
  | '_' :: c :: cs, acc => if isHexDig c then hexRest cs (acc * 16 + hexVal c) else none
  | c :: cs, acc => if isHexDig c then hexRest cs (acc * 16 + hexVal c) else none

/-- Python `int('0x' + s, 16)` as a partial function: `none` models the
`ValueError` raised on malformed hex.  `int` ignores trailing whitespace,
allows one `_` directly after the `0x` prefix and single `_` separators
between digits, and is unbounded (no 16-bit masking). -/
def pyIntHex (s : List Char) : Option Nat :=
  match (s.reverse.dropWhile isPyWs).reverse with
  | [] => none
  | '_' :: c :: cs => if isHexDig c then hexRest cs (hexVal c) else none
  | c :: cs => if isHexDig c then hexRest cs (hexVal c) else none

/-! ## CRC16 (crcmod predefined `crc16`, i.e. CRC-16/ARC:
polynomial 0xA001 in reflected form, init 0, no final xor)
over the UTF-8 encoding of the text (source line 144). -/

/-- One bit step: shift right, conditionally xor the reflected polynomial. -/
def crcShift (crc : Nat) : Nat :=
  if crc % 2 = 1 then (crc / 2) ^^^ 0xA001 else crc / 2

/-- Fold one byte into the CRC: xor it in, then eight bit steps. -/
def crcByte (crc b : Nat) : Nat := crcShift^[8] (crc ^^^ b)

def crc16 (bytes : List Nat) : Nat := bytes.foldl crcByte 0

/-- UTF-8 encoding of one character (as `Nat` byte values). -/
def utf8Bytes (c : Char) : List Nat :=
  let n := c.toNat
  if n < 0x80 then [n]
  else if n < 0x800 then [0xC0 + n / 64, 0x80 + n % 64]
  else if n < 0x10000 then [0xE0 + n / 4096, 0x80 + (n / 64) % 64, 0x80 + n % 64]
  else [0xF0 + n / 262144, 0x80 + (n / 4096) % 64, 0x80 + (n / 64) % 64, 0x80 + n % 64]

/-- Python `text.encode('utf-8')`. -/
def utf8Encode (cs : List Char) : List Nat := (cs.map utf8Bytes).flatten

/-! ## Route table and router (source lines 16-52, 64, 171-175) -/

def interestingCodes : List (String × String) :=
  [("1-3:0.2.8", "status/dsmr_version"),
   ("0-0:1.0.0", "status/current_time"),
   ("0-0:96.1.1", "status/equipment_id"),
   ("0-0:96.14.0", "electricity/status/tariff_indicator"),
   ("0-0:17.0.0", "electricity/status/threshold"),
   ("0-0:96.7.21", "electricity/status/power_failures"),
   ("0-0:96.7.9", "electricity/status/long_power_failures"),
   ("1-0:99.97.0", "electricity/status/power_failure_event_log"),
   ("0-0:96.13.0", "status/text_message"),
   ("1-0:1.8.1", "electricity/cumulative/consumed/tariff_1"),
   ("1-0:1.8.2", "electricity/cumulative/consumed/tariff_2"),
   ("1-0:2.8.1", "electricity/cumulative/delivered/tariff_1"),
   ("1-0:2.8.2", "electricity/cumulative/delivered/tariff_2"),
   ("1-0:1.7.0", "electricity/actual/power/consumed/total"),
   ("1-0:21.7.0", "electricity/actual/power/consumed/phase_1"),
   ("1-0:41.7.0", "electricity/actual/power/consumed/phase_2"),
   ("1-0:61.7.0", "electricity/actual/power/consumed/phase_3"),
   ("1-0:2.7.0", "electricity/actual/power/delivered/total"),
   ("1-0:22.7.0", "electricity/actual/power/delivered/phase_1"),
   ("1-0:42.7.0", "electricity/actual/power/delivered/phase_2"),
   ("1-0:62.7.0", "electricity/actual/power/delivered/phase_3"),
   ("1-0:31.7.0", "electricity/actual/current/phase_1"),
   ("1-0:51.7.0", "electricity/actual/current/phase_2"),
   ("1-0:71.7.0", "electricity/actual/current/phase_3"),
   ("1-0:32.7.0", "electricity/actual/voltage/phase_1"),
   ("1-0:52.7.0", "electricity/actual/voltage/phase_2"),
   ("1-0:72.7.0", "electricity/actual/voltage/phase_3"),
   ("1-0:32.32.0", "electricity/status/voltage_sags/phase_1"),
   ("1-0:52.32.0", "electricity/status/voltage_sags/phase_2"),
   ("1-0:72.32.0", "electricity/status/voltage_sags/phase_3"),
   ("1-0:32.36.0", "electricity/status/voltage_swells/phase_1"),
   ("1-0:52.36.0", "electricity/status/voltage_swells/phase_2"),
   ("1-0:72.36.0", "electricity/status/voltage_swells/phase_3"),
   ("0-1:24.2.1", "gas/cumulative/consumed"),
   ("0-1:96.1.0", "gas/status/equipment_id")]

def topicPrefixStr : String := "p1/"

/-- `obis_code in list_of_interesting_codes` / table lookup. -/
def lookupCode (id : String) : Option String :=
  (interestingCodes.find? (fun kv => kv.1 == id)).map (fun kv => kv.2)

/-- The MQTT topic the script publishes a data point to: the configured
path when the code is in the table, otherwise the fallback
`topic_prefix + "unidentified_code/" + obis_code` (lines 171-175). -/
def routeDest (id : String) : String :=
  match lookupCode id with
  | some p => topicPrefixStr ++ p
  | none => topicPrefixStr ++ "unidentified_code/" ++ id

/-! ## Checksum stage and publish loop (source lines 139-175) -/

inductive PyErr where
  | indexError : PyErr
  | valueError : PyErr
deriving DecidableEq

/-- The decode-and-publish loop (lines 158-175): every line of the
telegram that matches the OBIS pattern yields one `publish` call,
`(destination, value)`, in order. -/
def publishes (t : String) : List (String × String) :=
  (splitCRLF t.data).filterMap (fun line =>
    (decodeLine line).map (fun dp =>
      (routeDest (String.mk dp.identifier), String.mk dp.value)))

/-- The checksum stage and decode loop exactly as the source performs it
(lines 139-175): parse the claimed checksum from `split("!")[1]`
(raising `IndexError` if there is no `!`, `ValueError` if the hex is
malformed — both *outside* any `try`, so an `Except.error` here is an
uncaught exception that terminates the process), compute the CRC over
`split("!")[0]`, then — line 148 — overwrite the claimed value with the
computed one before comparing, and publish each decoded data point when
the comparison succeeds. -/
def processTelegram (t : String) : Except PyErr (List (String × String)) :=
  match codeTrailerHex t with
  | none => .error .indexError
  | some trailer =>
    match pyIntHex trailer with
    | none => .error .valueError
    | some given =>
      let calculated := crc16 (utf8Encode (codeBody t))
      let given := calculated
      if given = calculated then .ok (publishes t) else .ok []

/-! ## Framer (source lines 111-123) -/

/-- `telegram_line.startswith("!")`. -/
def isTrailerLine (l : String) : Bool :=
  match l.data with
  | '!' :: _ => true
  | _ => false

/-- The frame-accumulation loop: each decoded, stripped line is appended
with `"\r\n"` unless it is empty (skipped) or starts with `!` (appended
verbatim, frame complete).  Returns the accumulated telegram text and
the completion flag. -/
def framer : List String → String → String × Bool
  | [], acc => (acc, false)
  | l :: ls, acc =>
    if isTrailerLine l then (acc ++ l, true)
    else if l.data = [] then framer ls acc
    else framer ls (acc ++ l ++ "\r\n")

/-- Modelled from the spec (section 4.1/8): the lines the framer keeps,
up to and including the first trailer line, with empty lines dropped. -/
def upToTrailer : List String → List String
  | [] => []
  | l :: ls =>
    if isTrailerLine l then [l]
    else if l.data = [] then upToTrailer ls
    else l :: upToTrailer ls

/-- Modelled from the spec: a non-trailer line carries a canonical CR+LF
terminator, the trailer line is verbatim. -/
def renderLine (l : String) : String :=
  if isTrailerLine l then l else l ++ "\r\n"

/-- Modelled from the spec: the completed frame's content is the exact
concatenation of the intervening (rendered) lines in order. -/
def specFrameContent (ls : List String) : String :=
  ((upToTrailer ls).map renderLine).foldr (· ++ ·) ""

/-- Modelled from the spec: a frame completes iff a line beginning with
`!` has been fed. -/
def specHasTrailer (ls : List String) : Bool := ls.any isTrailerLine

/-! ## Helper lemmas -/

theorem splitOnBang_ne_nil (cs : List Char) : splitOnBang cs ≠ [] := by
  cases cs with
  | nil => simp [splitOnBang]
  | cons c cs =>
    simp only [splitOnBang]
    cases splitOnBang cs with
    | nil => simp
    | cons h t => by_cases hc : c = '!' <;> simp [hc]

theorem takeWhile_ne_of_not_mem {cs : List Char} (h : '!' ∉ cs) :
    cs.takeWhile (· ≠ '!') = cs := by
  induction cs with
  | nil => rfl
  | cons c cs ih =>
    have hc : c ≠ '!' := fun e => h (e ▸ List.mem_cons_self c cs)
    have h' : '!' ∉ cs := fun m => h (List.mem_cons_of_mem _ m)
    simp [List.takeWhile_cons, hc]
    exact fun x hx e => h' (e ▸ hx)

theorem splitOnBang_not_mem {cs : List Char} (h : '!' ∉ cs) : splitOnBang cs = [cs] := by
  induction cs with
  | nil => rfl
  | cons c cs ih =>
    have hc : c ≠ '!' := fun e => h (e ▸ List.mem_cons_self c cs)
    have h' : '!' ∉ cs := fun m => h (List.mem_cons_of_mem _ m)
    simp [splitOnBang, ih h', hc]

theorem splitOnBang_mem {cs : List Char} (h : '!' ∈ cs) :
    splitOnBang cs =
      cs.takeWhile (· ≠ '!') :: splitOnBang ((cs.dropWhile (· ≠ '!')).tail) := by
  induction cs with
  | nil => cases h
  | cons c cs ih =>
    by_cases hc : c = '!'
    · subst hc
      cases hsp : splitOnBang cs with
      | nil => exact absurd hsp (splitOnBang_ne_nil cs)
      | cons x t => simp [splitOnBang, hsp, List.takeWhile_cons, List.dropWhile_cons]
    · have h' : '!' ∈ cs := by
        cases List.mem_cons.mp h with
        | inl e => exact absurd e.symm hc
        | inr m => exact m
      simp [splitOnBang, ih h', hc, List.takeWhile_cons, List.dropWhile_cons]

theorem splitOnBang_headD (cs : List Char) :
    (splitOnBang cs).headD [] = cs.takeWhile (· ≠ '!') := by
  by_cases h : '!' ∈ cs
  · rw [splitOnBang_mem h]; rfl
  · rw [splitOnBang_not_mem h, takeWhile_ne_of_not_mem h]; rfl

theorem head?_dropWhile_false {p : α → Bool} {l : List α} {c : α}
    (h : (l.dropWhile p).head? = some c) : p c = false := by
  induction l with
  | nil => simp [List.dropWhile] at h
  | cons a l ih =>
    rw [List.dropWhile_cons] at h
    by_cases hp : p a
    · rw [if_pos hp] at h; exact ih h
    · rw [if_neg hp] at h
      simp only [List.head?_cons, Option.some.injEq] at h
      subst h
      exact Bool.eq_false_iff.mpr hp

theorem getLast?_dropWhile_eq {p : α → Bool} {l : List α} {c : α}
    (h : (l.dropWhile p).getLast? = some c) : l.getLast? = some c := by
  have hsplit := List.takeWhile_append_dropWhile (p := p) (l := l)
  calc l.getLast? = (l.takeWhile p ++ l.dropWhile p).getLast? := by rw [hsplit]
    _ = some c := by rw [List.getLast?_append, h]; rfl

theorem mem_of_mem_pyStrip {l : List Char} {c : Char} (h : c ∈ pyStrip l) : c ∈ l := by
  unfold pyStrip at h
  rw [List.mem_reverse] at h
  have h1 := List.Sublist.mem h (List.dropWhile_sublist isPyWs)
  rw [List.mem_reverse] at h1
  exact List.Sublist.mem h1 (List.dropWhile_sublist isPyWs)

theorem head?_pyStrip {l : List Char} {c : Char}
    (h : (pyStrip l).head? = some c) : isPyWs c = false := by
  unfold pyStrip at h
  rw [List.head?_reverse] at h
  have h2 := getLast?_dropWhile_eq h
  rw [List.getLast?_reverse] at h2
  exact head?_dropWhile_false h2

theorem getLast?_pyStrip {l : List Char} {c : Char}
    (h : (pyStrip l).getLast? = some c) : isPyWs c = false := by
  unfold pyStrip at h
  rw [List.getLast?_reverse] at h
  exact head?_dropWhile_false h

theorem not_paren_of_mem_clean {x : List Char} {c : Char}
    (h : c ∈ pyStrip (x.map parenToSpace)) : c ≠ '(' ∧ c ≠ ')' := by
  have h1 := mem_of_mem_pyStrip h
  rw [List.mem_map] at h1
  obtain ⟨a, _, ha⟩ := h1
  unfold parenToSpace at ha
  by_cases h2 : (a = '(' || a = ')') = true
  · rw [if_pos h2] at ha; subst ha; exact ⟨by decide, by decide⟩
  · rw [if_neg h2] at ha
    subst ha
    simp only [Bool.or_eq_true, decide_eq_true_eq, not_or] at h2
    exact h2

theorem framer_acc (ls : List String) :
    ∀ acc, framer ls acc = (acc ++ specFrameContent ls, specHasTrailer ls) := by
  induction ls with
  | nil =>
    intro acc
    simp [framer, specFrameContent, upToTrailer, specHasTrailer]
  | cons l ls ih =>
    intro acc
    by_cases ht : isTrailerLine l
    · simp [framer, ht, specFrameContent, upToTrailer, renderLine, specHasTrailer]
    · by_cases he : l.data = []
      · simp [framer, ht, he, specFrameContent, upToTrailer, specHasTrailer, ih]
      · simp [framer, ht, he, specFrameContent, upToTrailer, renderLine,
          specHasTrailer, ih, String.append_assoc]

theorem lookup_mem {id p : String} (h : lookupCode id = some p) :
    ∃ k, (k, p) ∈ interestingCodes := by
  unfold lookupCode at h
  cases hf : interestingCodes.find? (fun kv => kv.1 == id) with
  | none => rw [hf] at h; cases h
  | some kv =>
    rw [hf] at h
    simp only [Option.map_some', Option.some.injEq] at h
    refine ⟨kv.1, ?_⟩
    have hm := List.mem_of_find?_eq_some hf
    rwa [← h]

theorem values_head_ne_u : ∀ kv ∈ interestingCodes, kv.2.data.head? ≠ some 'u' := by
  decide

theorem route_dest_starts (id : String) : "p1/".data <+: (routeDest id).data := by
  unfold routeDest
  cases lookupCode id with
  | some p =>
    refine ⟨p.data, ?_⟩
    rw [← String.data_append]
    rfl
  | none =>
    refine ⟨("unidentified_code/" ++ id).data, ?_⟩
    rw [← String.data_append, String.append_assoc]
    rfl

/-! ## Claim theorems -/

set_option maxRecDepth 100000

/-- Claim C1: the claim says the checksum gate accepts only when the claimed
checksum equals the computed CRC16 and that a mismatched telegram is discarded
with no data point published.  The code contradicts this: line 148
(`given_checksum = calculated_checksum`) overwrites the claimed value before
the comparison, so the gate always accepts.  At the telegram
`"1-0:1.8.1(1)\r\n!0000"` the claimed checksum parses to `0`, the computed
CRC16 of the body is not `0`, and yet the pipeline publishes the decoded data
point. -/
theorem claim_C1_code_behavior :
    codeTrailerHex "1-0:1.8.1(1)\r\n!0000" = some ("0000".data) ∧
    pyIntHex ("0000".data) = some 0 ∧
    crc16 (utf8Encode (codeBody "1-0:1.8.1(1)\r\n!0000")) ≠ 0 ∧
    processTelegram "1-0:1.8.1(1)\r\n!0000" =
      .ok [("p1/electricity/cumulative/consumed/tariff_1", "1")] :=
  ⟨rfl, rfl, by decide, rfl⟩

/-- Claim C2: the claim (and the source's own comment at line 143, "The
exclamation mark is also part of the text to be CRC16'd") says the computed
checksum is the CRC16 over the telegram bytes up to AND INCLUDING the trailer
marker.  The code computes the CRC over `telegram.split("!")[0]`, which is
exactly the text BEFORE the first `!`, excluding the marker: for every
telegram the checksummed range is `takeWhile (· ≠ '!')`, and at the concrete
completed telegram `"AB\r\n!0000"` the CRC the code computes (over
`"AB\r\n"`) differs from the CRC over `"AB\r\n!"` that the claim requires. -/
theorem claim_C2_code_behavior :
    (∀ t : String, crc16 (utf8Encode (codeBody t)) =
        crc16 (utf8Encode (t.data.takeWhile (· ≠ '!')))) ∧
    codeBody "AB\r\n!0000" = "AB\r\n".data ∧
    crc16 (utf8Encode ("AB\r\n".data)) ≠ crc16 (utf8Encode ("AB\r\n!".data)) := by
  refine ⟨?_, rfl, by decide⟩
  intro t
  rw [codeBody, splitOnBang_headD]

/-- Claim C3 counterexample: the claim says a telegram whose trailer hex
suffix is not valid hexadecimal is discarded with a recoverable diagnostic
and the loop continues.  In the code, `int('0x' + ..., 16)` at line 141 sits
outside every `try` block, so the `ValueError` is uncaught and terminates
the process (modelled as `Except.error`): the line `"!XZ@"` frames into a
completed telegram whose checksum stage raises an uncaught `ValueError`. -/
theorem claim_C3_counterexample :
    framer ["!XZ@"] "" = ("!XZ@", true) ∧
    processTelegram "!XZ@" = .error .valueError :=
  ⟨rfl, rfl⟩

/-- Claim C3 (amended): when the telegram text contains no `!` the checksum
stage raises an uncaught `IndexError`, and when the trailer hex does not
parse it raises an uncaught `ValueError`; both escape the driver loop
(only the read phase, lines 98-129, is guarded by `try`) and terminate the
process rather than being surfaced as recoverable diagnostics. -/
theorem claim_C3_amended (t : String) :
    (codeTrailerHex t = none → processTelegram t = .error .indexError) ∧
    (∀ trailer, codeTrailerHex t = some trailer → pyIntHex trailer = none →
      processTelegram t = .error .valueError) := by
  constructor
  · intro h; simp only [processTelegram, h]
  · intro trailer h hp; simp only [processTelegram, h, hp]

/-- Claim C3 witness: the amended theorem applied to the concrete telegrams
`""` (no trailer marker) and `"!XZ@@"` (malformed hex). -/
theorem claim_C3_witness :
    processTelegram "" = .error .indexError ∧
    processTelegram "!XZ@@" = .error .valueError :=
  ⟨(claim_C3_amended "").1 rfl, (claim_C3_amended "!XZ@@").2 ("XZ@@".data) rfl rfl⟩

/-- Claim C4: the framing loop marks the frame complete iff a line beginning
with `!` is fed; non-empty non-trailer lines are appended with a CR+LF
terminator, the trailer line verbatim, empty lines are ignored, and the
completed telegram's content is the concatenation of the intervening lines
in order (the spec-side rendering `specFrameContent`). -/
theorem claim_C4 : ∀ ls : List String,
    framer ls "" = (specFrameContent ls, specHasTrailer ls) ∧
    ((framer ls "").2 = true ↔ ∃ l, l ∈ ls ∧ isTrailerLine l = true) := by
  intro ls
  have h := framer_acc ls ""
  rw [String.empty_append] at h
  refine ⟨h, ?_⟩
  rw [h]
  simp only [specHasTrailer]
  exact List.any_eq_true

/-- Claim C5 counterexample: the claim says decoding matches exactly the
pattern `\d+-\d+:\d+\.\d+\.\d+` (one-or-more digit groups, literal dots) and
that non-matching lines yield nothing.  The code's regex is
`\d*-\d*:\d*.\d*.\d*` (zero-or-more digits, unescaped dots), so the line
`"-:ab"` — which does not match the claimed pattern — nevertheless yields a
data point with identifier `"-:ab"` and empty value. -/
theorem claim_C5_counterexample :
    decodeLine ("-:ab".data) = some ⟨"-:ab".data, []⟩ ∧
    reMatch specObisToks ("-:ab".data) = none :=
  ⟨rfl, rfl⟩

/-- Claim C5 (amended): decoding is total and is governed by the pattern the
code actually uses, `\d*-\d*:\d*.\d*.\d*` with `\d*` matching zero or more
digits and `.` matching any character except newline (`obisToks`): a line
matches iff it yields exactly one data point, whose identifier is the
greedily matched prefix and whose value is the remainder with parentheses
replaced by spaces and stripped — hence containing no parenthesis characters
and no leading or trailing whitespace. -/
theorem claim_C5_amended (cs : List Char) :
    (reMatch obisToks cs = none → decodeLine cs = none) ∧
    (∀ dp, decodeLine cs = some dp →
      ∃ n, reMatch obisToks cs = some n ∧
        dp.identifier = cs.take n ∧
        dp.value = pyStrip ((cs.drop n).map parenToSpace) ∧
        (∀ c, c ∈ dp.value → c ≠ '(' ∧ c ≠ ')') ∧
        (∀ c, dp.value.head? = some c → isPyWs c = false) ∧
        (∀ c, dp.value.getLast? = some c → isPyWs c = false)) := by
  constructor
  · intro h; unfold decodeLine; rw [h]
  · intro dp h
    cases hr : reMatch obisToks cs with
    | none => simp only [decodeLine, hr] at h; exact Option.noConfusion h
    | some n =>
      simp only [decodeLine, hr, Option.some.injEq] at h
      subst h
      exact ⟨n, rfl, rfl, rfl,
        fun c hc => not_paren_of_mem_clean hc,
        fun c hc => head?_pyStrip hc,
        fun c hc => getLast?_pyStrip hc⟩

/-- Claim C5 witness: the amended theorem applied to the concrete line
`"1-2:3.4.5(x)"`, whose data point has identifier `"1-2:3.4.5"` and value
`"x"`. -/
theorem claim_C5_witness : 'x' ≠ '(' ∧ 'x' ≠ ')' ∧ isPyWs 'x' = false := by
  obtain ⟨n, hn, hid, hval, hpar, hhead, hlast⟩ :=
    (claim_C5_amended ("1-2:3.4.5(x)".data)).2 ⟨"1-2:3.4.5".data, "x".data⟩ (by decide)
  have h1 := hpar 'x' (by decide)
  exact ⟨h1.1, h1.2, hhead 'x' (by decide)⟩

/-- Claim C6: routing is a pure total function: a mapped identifier goes to
its configured path under the topic root, an unmapped identifier goes to the
deterministic fallback `unidentified_code/` plus the literal identifier, and
the fallback destination differs from every mapped destination (no table
value begins with `unidentified_code/`). -/
theorem claim_C6 (id : String) :
    (∀ p, lookupCode id = some p → routeDest id = topicPrefixStr ++ p) ∧
    (lookupCode id = none →
      routeDest id = topicPrefixStr ++ "unidentified_code/" ++ id ∧
      ∀ id2 p2, lookupCode id2 = some p2 → routeDest id ≠ routeDest id2) := by
  constructor
  · intro p hp; unfold routeDest; rw [hp]
  · intro hn
    constructor
    · unfold routeDest; rw [hn]
    · intro id2 p2 hp2 heq
      unfold routeDest at heq
      rw [hn, hp2] at heq
      have hdata := congrArg String.data heq
      rw [String.data_append, String.data_append, String.data_append,
        List.append_assoc] at hdata
      have hcancel := List.append_cancel_left hdata
      have hu : p2.data.head? = some 'u' := by rw [← hcancel]; rfl
      obtain ⟨k, hk⟩ := lookup_mem hp2
      exact values_head_ne_u (k, p2) hk hu

/-- Claim C6 witness: the theorem applied to the unmapped identifier
`"9-9:9.9.9"` and the mapped identifier `"1-3:0.2.8"`. -/
theorem claim_C6_witness :
    routeDest "9-9:9.9.9" = topicPrefixStr ++ "unidentified_code/" ++ "9-9:9.9.9" ∧
    routeDest "9-9:9.9.9" ≠ routeDest "1-3:0.2.8" := by
  have h := (claim_C6 "9-9:9.9.9").2 (by decide)
  exact ⟨h.1, h.2 "1-3:0.2.8" "status/dsmr_version" (by decide)⟩

/-- Claim C7 counterexample: the claim says the identifier `0-1:96.1.0` is
not in the route table and is routed to the fallback destination.  In the
code's table (source line 51) it IS mapped, to `gas/status/equipment_id`,
so the router does not return the fallback. -/
theorem claim_C7_counterexample :
    lookupCode "0-1:96.1.0" = some "gas/status/equipment_id" ∧
    routeDest "0-1:96.1.0" ≠ topicPrefixStr ++ "unidentified_code/" ++ "0-1:96.1.0" :=
  ⟨rfl, by decide⟩

/-- Claim C7 (amended): for the input line `0-1:96.1.0(ABC123)` the decoder
yields the data point with identifier `0-1:96.1.0` and value `ABC123`; that
identifier IS a key of the route table, mapped to `gas/status/equipment_id`,
and the router returns `p1/gas/status/equipment_id`. -/
theorem claim_C7_amended :
    decodeLine ("0-1:96.1.0(ABC123)".data) =
      some ⟨"0-1:96.1.0".data, "ABC123".data⟩ ∧
    lookupCode "0-1:96.1.0" = some "gas/status/equipment_id" ∧
    routeDest "0-1:96.1.0" = "p1/gas/status/equipment_id" :=
  ⟨rfl, rfl, rfl⟩

/-- Claim C8 counterexample: the claim says that when the transport yields
no lines (a timed-out `readline` returns the empty string) the driver
abandons the in-progress telegram and resets the framer to an empty
accumulator.  Feeding two timeout reads after a data line leaves the partial
telegram `"1-0:1.8.1(1)\r\n"` in the accumulator — not reset to empty — and
the frame incomplete. -/
theorem claim_C8_counterexample :
    framer ["1-0:1.8.1(1)", "", ""] "" = ("1-0:1.8.1(1)\r\n", false) ∧
    ("1-0:1.8.1(1)\r\n" : String) ≠ "" :=
  ⟨rfl, by decide⟩

/-- Claim C8 (amended): a timed-out read yields an empty line, which the
frame-accumulation loop simply skips: any number of timeout reads leaves the
accumulator unchanged and the frame incomplete, so the driver stays in the
loop indefinitely; there is no timeout-abandon, reset, or distinct timeout
report (the serial timeout of 12 s, line 80, only bounds each single read). -/
theorem claim_C8_amended : ∀ (acc : String) (n : Nat),
    framer (List.replicate n "") acc = (acc, false) := by
  intro acc n
  induction n generalizing acc with
  | zero => rfl
  | succ n ih =>
    rw [List.replicate_succ]
    show framer ("" :: List.replicate n "") acc = (acc, false)
    simp only [framer, isTrailerLine]
    exact ih acc

/-- Claim C9: every destination the pipeline ever passes to the sink's
publish operation — whether from a mapped identifier or from the unmapped
fallback — begins with the fixed topic root `p1/`. -/
theorem claim_C9 : ∀ (t : String) (res : List (String × String)),
    processTelegram t = .ok res → ∀ d v, (d, v) ∈ res → "p1/".data <+: d.data := by
  intro t res h d v hm
  cases hc : codeTrailerHex t with
  | none => simp only [processTelegram, hc] at h; exact Except.noConfusion h
  | some trailer =>
    cases hp : pyIntHex trailer with
    | none => simp only [processTelegram, hc, hp] at h; exact Except.noConfusion h
    | some g =>
      simp only [processTelegram, hc, hp, if_pos] at h
      injection h with h
      subst h
      rw [publishes, List.mem_filterMap] at hm
      obtain ⟨line, hline, hmap⟩ := hm
      cases hd : decodeLine line with
      | none => rw [hd] at hmap; cases hmap
      | some dp =>
        rw [hd] at hmap
        simp only [Option.map_some', Option.some.injEq, Prod.mk.injEq] at hmap
        rw [← hmap.1]
        exact route_dest_starts _

/-- Claim C9 witness: the theorem applied to the telegram
`"0-1:96.1.0(ABC123)\r\n!0000"`, which publishes exactly one data point to
`p1/gas/status/equipment_id`. -/
theorem claim_C9_witness : "p1/".data <+: ("p1/gas/status/equipment_id" : String).data :=
  claim_C9 "0-1:96.1.0(ABC123)\r\n!0000"
    [("p1/gas/status/equipment_id", "ABC123")] rfl
    "p1/gas/status/equipment_id" "ABC123" (List.Mem.head _)

/-- Claim C10: for every telegram containing more than one `!`, the
body/trailer split (`telegram.split("!")`) is taken at the FIRST occurrence
of `!` in the whole telegram text: the CRC input (`split[0]`) is everything
before the first `!`, and the claimed checksum is parsed from `split[1]`,
the text immediately following the first `!` up to the next one — so a `!`
inside a data line's value changes both. -/
theorem claim_C10 (t : String) (h : 2 ≤ t.data.count '!') :
    codeBody t = t.data.takeWhile (· ≠ '!') ∧
    codeTrailerHex t =
      some (((t.data.dropWhile (· ≠ '!')).tail).takeWhile (· ≠ '!')) := by
  have hm : '!' ∈ t.data := List.count_pos_iff.mp (by omega)
  have hsb := splitOnBang_mem hm
  constructor
  · unfold codeBody; rw [hsb]; rfl
  · unfold codeTrailerHex
    rw [hsb]
    have hh := splitOnBang_headD ((t.data.dropWhile (· ≠ '!')).tail)
    cases hr : splitOnBang ((t.data.dropWhile (· ≠ '!')).tail) with
    | nil => exact absurd hr (splitOnBang_ne_nil _)
    | cons x xs =>
      rw [hr] at hh
      simp only [List.headD_cons] at hh
      simp only [List.getElem?_cons_succ, List.getElem?_cons_zero]
      rw [hh]

/-- Claim C10 witness: the theorem applied to the concrete telegram text
`"a!b!"`, which contains two `!` characters. -/
theorem claim_C10_witness :
    codeBody "a!b!" = ("a!b!" : String).data.takeWhile (· ≠ '!') ∧
    codeTrailerHex "a!b!" =
      some (((("a!b!" : String).data.dropWhile (· ≠ '!')).tail).takeWhile (· ≠ '!')) :=
  claim_C10 "a!b!" (by decide)

end P1
